import Mathlib

/-!
Verification of the instance-lifecycle controller of the Payara VS Code
ecosystem plugin, shallowly embedded from
`PayaraMicroInstanceController.ts`, `PayaraInstanceController.ts`
(contained in the generator source file) and `Maven.ts`.

External collaborators (VS Code UI, OS process spawning, the HTTP admin
client) are modelled as explicit environments and emitted `Effect` values;
the controller logic itself is translated branch by branch from the
TypeScript source.  Accessors of `PayaraMicroInstance` /
`PayaraServerInstance` (`isStopped`, `isStarted`, `isRestarting`,
`setState`, `setStarted`, `setHomePage`) are not part of the given
sources and are modelled from the specification's data model: `isStopped`
holds iff the state is `STOPPED`, `isStarted` iff the state is `RUNNING`,
`isRestarting` iff the state is `RESTARTING`, `setStarted true/false` sets
`RUNNING`/`STOPPED`, and `setHomePage` stores the trimmed banner line
(the spec's scenario maps the output line " http://localhost:8080" to the
home page "http://localhost:8080").
-/

/-- The instance state enum of `PayaraMicroInstance.ts` /
`PayaraServerInstance.ts`; the source spells the loading state `LODING`. -/
inductive InstanceState where
  | STOPPED
  | LODING
  | RUNNING
  | RESTARTING
deriving Repr, DecidableEq

/-- Abstract token for the Maven command line assembled by `Maven.ts`;
the goal strings themselves are irrelevant to the lifecycle logic. -/
inductive CmdKind where
  | microStartUberJar (hasDebugConfig : Bool)
  | microStartExploded (hasDebugConfig : Bool)
  | microReload
  | microStop
  | microBundle
  | serverStart
deriving Repr, DecidableEq

/-- Observable side effects of the controllers: user-visible messages,
browser/debugger launches, process spawns and state-change notifications. -/
inductive Effect where
  | errorMsg (msg : String)
  | warnMsg (msg : String)
  | consoleError
  | consoleWarn
  | openBrowser (url : List Char)
  | startDebugging
  | spawned (kind : CmdKind)
  | stateSet (s : InstanceState)
  | refreshList
  | connectOutput
  | disconnectOutput
  | showOutput
  | deployApplication (p : List Char)
  | buildAndDeploy (p : List Char)
  | probeRest
  | probeJps
deriving Repr, DecidableEq

/-- A `ChildProcess` handle as returned by `cp.spawn`: the object always
exists once `spawn` returns, but `pid` may be absent, in which case
`fireCommand` wires no callbacks. -/
structure ProcHandle where
  pid : Option Nat
deriving Repr, DecidableEq

/-- A `PayaraMicroInstance`: state, debug flag, discovered home page and
the owned process handle. -/
structure MicroInst where
  state : InstanceState
  debug : Bool
  homePage : Option (List Char)
  process : Option ProcHandle
deriving Repr, DecidableEq

/-- A `PayaraServerInstance`: state and debug flag (the fields the
controller logic reads and writes). -/
structure ServerInst where
  state : InstanceState
  debug : Bool
deriving Repr, DecidableEq

/-- Environment of a Maven-driven micro operation: the
`payara-micro-maven-plugin` configuration read by `MicroPluginReader`
(tri-state options), the Maven installation, the workspace folder and the
pid assigned by the OS on spawn. -/
structure MicroEnv where
  deployWar : Option Bool
  uberJar : Option Bool
  mavenHome : Option String
  mavenExeExists : Bool
  hasWorkspaceFolder : Bool
  spawnPid : Option Nat
deriving Repr, DecidableEq

/-- Environment of a server start: the pid of the process spawned by
`StartTask` (absent when the spawn yields no pid). -/
structure ServerEnv where
  spawnPid : Option Nat
deriving Repr, DecidableEq

/-- Result of a `Maven` build-tool call (`fireCommand` and its callers):
the returned process (if any), the emitted effects, and the message of an
uncaught `throw`, if one occurred. -/
structure BuildResult where
  proc : Option ProcHandle
  effects : List Effect
  thrown : Option String
deriving Repr, DecidableEq

/-- Result of a controller operation on a micro instance. -/
structure MicroResult where
  inst : MicroInst
  effects : List Effect
  thrown : Option String
deriving Repr, DecidableEq

def microAlreadyRunningMsg : String := "Payara Micro instance already running."

def microNotRunningMsg : String := "Payara Micro instance not running."

def serverAlreadyRunningMsg : String := "Payara Server instance already running."

def serverNotRunningMsg : String := "Payara Server instance not running."

def enableOptionsMsg : String := "Please either enable the deployWar or useUberJar option in payara-micro-maven-plugin configuration to deploy the application."

def reloadNotSupportedMsg : String := "The reload action not supported for UberJar artifact."

def unableRestartMsg : String := "Unable to restart the Payara Server."

def deployAbortMsg : String := "Unable to deploy the application as Payara Server instance not running."

def mavenHomeNotFoundMsg : String := "Maven home path not found."

def mavenExeNotFoundMsg : String := "Maven executable [mvn] not found"

def workspaceNotFoundMsg : String := "WorkSpace path not found."

/-- JavaScript `String.prototype.indexOf`: index of the first occurrence
of `pat` in `s`, or `none` for `-1`. -/
def jsIndexOf (pat : List Char) : List Char → Option Nat
  | [] => if pat.isPrefixOf ([] : List Char) then some 0 else none
  | c :: t =>
    if pat.isPrefixOf (c :: t) then some 0
    else (jsIndexOf pat t).map (fun n => n + 1)

/-- JavaScript `String.prototype.split` with a single-character
separator. -/
def splitOnChar (sep : Char) : List Char → List (List Char)
  | [] => [[]]
  | c :: t =>
    if c = sep then [] :: splitOnChar sep t
    else
      match splitOnChar sep t with
      | [] => [[c]]
      | h :: r => (c :: h) :: r

/-- JavaScript `String.prototype.trim` (restricted to the ASCII
whitespace actually occurring in the banner lines). -/
def jsTrim (l : List Char) : List Char :=
  ((l.dropWhile Char.isWhitespace).reverse.dropWhile Char.isWhitespace).reverse

/-- The ready marker searched for in the process output. -/
def readyMarker : List Char := "Payara Micro URLs:".toList

/-- The debugger-attach marker searched for in the process output. -/
def dtSocketMarker : List Char := "Listening for transport dt_socket at address:".toList

/-- Whether a data chunk contains the ready marker. -/
def hasMarker (data : List Char) : Bool := (jsIndexOf readyMarker data).isSome

/-- JavaScript truthiness of a `boolean | undefined` value. -/
def isTruthy : Option Bool → Bool
  | some b => b
  | none => false

/-- `Maven.fireCommand`: throws when the Maven home, the Maven executable
or the workspace folder is missing; otherwise spawns the process and, when
a pid was assigned, shows the output window and wires the callbacks. -/
def fireCommand (env : MicroEnv) (kind : CmdKind) : BuildResult :=
  if env.mavenHome.isNone then
    { proc := none, effects := [], thrown := some mavenHomeNotFoundMsg }
  else if env.mavenExeExists = false then
    { proc := none, effects := [], thrown := some mavenExeNotFoundMsg }
  else if env.hasWorkspaceFolder = false then
    { proc := none, effects := [], thrown := some workspaceNotFoundMsg }
  else
    { proc := some { pid := env.spawnPid },
      effects := Effect.spawned kind ::
        (if env.spawnPid.isSome then [Effect.showOutput] else []),
      thrown := none }

/-- `Maven.startPayaraMicro`: declines with a warning when both the
`deployWar` and `useUberJar` plugin options are explicitly disabled,
otherwise fires the uber-jar or exploded-war goal sequence. -/
def startPayaraMicro (env : MicroEnv) (hasDebugConfig : Bool) : BuildResult :=
  if env.deployWar = some false ∧ env.uberJar = some false then
    { proc := none, effects := [Effect.warnMsg enableOptionsMsg], thrown := none }
  else if isTruthy env.uberJar then
    fireCommand env (CmdKind.microStartUberJar hasDebugConfig)
  else
    fireCommand env (CmdKind.microStartExploded hasDebugConfig)

/-- `PayaraMicroInstanceController.startMicro`: rejects a non-STOPPED
instance with an error, otherwise sets the debug flag, moves to `LODING`
and launches the build; when the build returns no process the state is
put back to `STOPPED`; when the build throws, the exception escapes with
the state left at `LODING`. -/
def startMicro (debug : Bool) (env : MicroEnv) (i : MicroInst) : MicroResult :=
  if i.state ≠ InstanceState.STOPPED then
    { inst := i, effects := [Effect.errorMsg microAlreadyRunningMsg], thrown := none }
  else
    let hasDebugConfig := debug && env.hasWorkspaceFolder
    let i2 : MicroInst := { i with debug := debug, state := InstanceState.LODING }
    let r := startPayaraMicro env hasDebugConfig
    match r.thrown with
    | some m =>
      { inst := i2, effects := Effect.stateSet InstanceState.LODING :: r.effects,
        thrown := some m }
    | none =>
      match r.proc with
      | some h =>
        { inst := { i2 with process := some h },
          effects := Effect.stateSet InstanceState.LODING :: r.effects, thrown := none }
      | none =>
        { inst := { i2 with state := InstanceState.STOPPED },
          effects := Effect.stateSet InstanceState.LODING :: r.effects
            ++ [Effect.stateSet InstanceState.STOPPED],
          thrown := none }

/-- The browser-opening step of `parseApplicationUrl`: opens the stored
home page when it is defined and non-empty (lodash `isEmpty`). -/
def homePageEffects (o : Option (List Char)) : List Effect :=
  match o with
  | some hp => if hp.isEmpty then [] else [Effect.openBrowser hp]
  | none => []

/-- `PayaraMicroInstanceController.parseApplicationUrl`: on finding the
ready marker, stores the line following it as the home page (trimmed, per
the modelled `setHomePage`), opens the home page when non-empty and
returns `true`; otherwise returns `false`. -/
def parseApplicationUrl (data : List Char) (i : MicroInst) : MicroInst × List Effect × Bool :=
  match jsIndexOf readyMarker data with
  | some urlIndex =>
    let lines := splitOnChar (Char.ofNat 10) (data.drop urlIndex)
    let i2 := if lines.length > 1 then { i with homePage := some (jsTrim (lines.getD 1 [])) } else i
    (i2, homePageEffects i2.homePage, true)
  | none => (i, [], false)

/-- The stdout/stderr data callback wired by `startMicro`: skipped
entirely once the instance is started (`RUNNING`); otherwise attaches the
debugger on the dt_socket marker (at most once, via the `debugConfig`
flag `dc`) and transitions to `RUNNING` when `parseApplicationUrl`
recognises the ready marker. -/
def microOnData (dc : Bool) (i : MicroInst) (data : List Char) : Bool × MicroInst × List Effect :=
  if i.state = InstanceState.RUNNING then (dc, i, [])
  else
    let attach : Bool := dc && (jsIndexOf dtSocketMarker data).isSome
    let dc2 : Bool := if attach then false else dc
    let e1 : List Effect := if attach then [Effect.startDebugging] else []
    let p := parseApplicationUrl data i
    if p.2.2 then
      (dc2, { p.1 with state := InstanceState.RUNNING },
       e1 ++ p.2.1 ++ [Effect.stateSet InstanceState.RUNNING])
    else (dc2, p.1, e1 ++ p.2.1)

/-- Delivery of a whole sequence of output chunks through the data
callback, threading the debug-attach flag and the instance. -/
def microOnDataList (dc : Bool) (i : MicroInst) : List (List Char) → Bool × MicroInst × List Effect
  | [] => (dc, i, [])
  | d :: rest =>
    let s := microOnData dc i d
    let r := microOnDataList s.1 s.2.1 rest
    (r.1, r.2.1, s.2.2 ++ r.2.2)

/-- The exit callback wired by `startMicro`: unconditionally sets the
instance back to `STOPPED`, warning on a non-zero exit code. -/
def microStartOnExit (code : Int) (i : MicroInst) : MicroInst × List Effect :=
  ({ i with state := InstanceState.STOPPED },
   Effect.stateSet InstanceState.STOPPED ::
     (if code ≠ 0 then [Effect.consoleWarn] else []))

/-- The spawn-error callback wired by `startMicro`: logs the error and
sets the instance back to `STOPPED`. -/
def microStartOnError (i : MicroInst) : MicroInst × List Effect :=
  ({ i with state := InstanceState.STOPPED },
   [Effect.consoleError, Effect.stateSet InstanceState.STOPPED])

/-- `Maven.reloadPayaraMicro`: declines with a warning for an uber-jar
build, otherwise fires the incremental rebuild-and-reload goals. -/
def reloadPayaraMicro (env : MicroEnv) : BuildResult :=
  if isTruthy env.uberJar then
    { proc := none, effects := [Effect.warnMsg reloadNotSupportedMsg], thrown := none }
  else fireCommand env CmdKind.microReload

/-- The exit callback wired by `reloadMicro`: sets `RUNNING` regardless
of the exit code, warning when it is non-zero. -/
def reloadOnExit (code : Int) (i : MicroInst) : MicroInst × List Effect :=
  ({ i with state := InstanceState.RUNNING },
   Effect.stateSet InstanceState.RUNNING ::
     (if code ≠ 0 then [Effect.consoleWarn] else []))

/-- The error callback wired by `reloadMicro`: logs the error and sets
`RUNNING`. -/
def reloadOnError (i : MicroInst) : MicroInst × List Effect :=
  ({ i with state := InstanceState.RUNNING },
   [Effect.consoleError, Effect.stateSet InstanceState.RUNNING])

/-- `PayaraMicroInstanceController.reloadMicro` up to the point where the
task's callbacks may fire: rejects a stopped instance, otherwise moves to
`LODING` and fires the reload build; when the build yields no task the
state goes straight back to `RUNNING`.  The boolean records whether a task
with callbacks wired (a process with a pid) was produced. -/
def reloadMicro (env : MicroEnv) (i : MicroInst) : MicroResult × Bool :=
  if i.state = InstanceState.STOPPED then
    ({ inst := i, effects := [Effect.errorMsg microNotRunningMsg], thrown := none }, false)
  else
    let i2 : MicroInst := { i with state := InstanceState.LODING }
    let r := reloadPayaraMicro env
    match r.thrown with
    | some m =>
      ({ inst := i2, effects := Effect.stateSet InstanceState.LODING :: r.effects,
         thrown := some m }, false)
    | none =>
      match r.proc with
      | some h =>
        ({ inst := i2, effects := Effect.stateSet InstanceState.LODING :: r.effects,
           thrown := none }, h.pid.isSome)
      | none =>
        ({ inst := { i2 with state := InstanceState.RUNNING },
           effects := Effect.stateSet InstanceState.LODING :: r.effects
             ++ [Effect.stateSet InstanceState.RUNNING],
           thrown := none }, false)

/-- How a launched build task completes: process exit with a code, or the
error event. -/
inductive TaskOutcome where
  | exited (code : Int)
  | errored
deriving Repr, DecidableEq

/-- A whole `reloadMicro` interaction: the controller call followed by
the completion of the launched task (when one was launched). -/
def reloadRun (env : MicroEnv) (o : TaskOutcome) (i : MicroInst) : MicroResult :=
  let rc := reloadMicro env i
  if rc.2 then
    match o with
    | TaskOutcome.exited c =>
      let s := reloadOnExit c rc.1.inst
      { inst := s.1, effects := rc.1.effects ++ s.2, thrown := rc.1.thrown }
    | TaskOutcome.errored =>
      let s := reloadOnError rc.1.inst
      { inst := s.1, effects := rc.1.effects ++ s.2, thrown := rc.1.thrown }
  else rc.1

/-- `PayaraMicroInstanceController.stopMicro` up to the point where the
task's callbacks may fire: rejects a stopped instance, otherwise fires
the stop goal without touching the instance. -/
def stopMicro (env : MicroEnv) (i : MicroInst) : MicroResult :=
  if i.state = InstanceState.STOPPED then
    { inst := i, effects := [Effect.errorMsg microNotRunningMsg], thrown := none }
  else
    let r := fireCommand env CmdKind.microStop
    { inst := i, effects := r.effects, thrown := r.thrown }

/-- The exit callback wired by `stopMicro`: clears the debug flag and
sets `STOPPED` regardless of the exit code, warning when it is
non-zero. -/
def microStopOnExit (code : Int) (i : MicroInst) : MicroInst × List Effect :=
  ({ i with debug := false, state := InstanceState.STOPPED },
   Effect.stateSet InstanceState.STOPPED ::
     (if code ≠ 0 then [Effect.consoleWarn] else []))

/-- The error callback wired by `stopMicro`: logs the error, clears the
debug flag and sets `STOPPED`. -/
def microStopOnError (i : MicroInst) : MicroInst × List Effect :=
  ({ i with debug := false, state := InstanceState.STOPPED },
   [Effect.consoleError, Effect.stateSet InstanceState.STOPPED])

/-- `PayaraInstanceController.startServer`: rejects a non-STOPPED
instance; otherwise spawns the start task and, when a pid was assigned,
sets the debug flag, moves to `LODING` and arms the REST liveness
probe. -/
def startServer (debug : Bool) (env : ServerEnv) (i : ServerInst) : ServerInst × List Effect :=
  if i.state ≠ InstanceState.STOPPED then (i, [Effect.errorMsg serverAlreadyRunningMsg])
  else
    match env.spawnPid with
    | some _ =>
      ({ i with debug := debug, state := InstanceState.LODING },
       [Effect.spawned CmdKind.serverStart, Effect.stateSet InstanceState.LODING,
        Effect.refreshList, Effect.showOutput, Effect.probeRest])
    | none => (i, [Effect.spawned CmdKind.serverStart])

/-- The process-exit callback wired by `startServer`: sets the instance
to `STOPPED` (via `setStarted false`) and refreshes the UI, unless the
instance is flagged `RESTARTING`, in which case the exit is ignored. -/
def serverStartOnExit (code : Int) (i : ServerInst) : ServerInst × List Effect :=
  if i.state = InstanceState.RESTARTING then (i, [])
  else ({ i with state := InstanceState.STOPPED }, [Effect.refreshList])

/-- The `restart-domain` response handler of
`PayaraInstanceController.restartServer`: on HTTP 200 sets the debug flag,
moves to `RESTARTING` and arms both liveness probes; on any other status
only reports an error. -/
def restartServerResponse (statusCode : Nat) (debug : Bool) (i : ServerInst) :
    ServerInst × List Effect :=
  if statusCode = 200 then
    ({ i with debug := debug, state := InstanceState.RESTARTING },
     [Effect.connectOutput, Effect.stateSet InstanceState.RESTARTING, Effect.refreshList,
      Effect.showOutput, Effect.probeRest, Effect.probeJps])
  else (i, [Effect.errorMsg unableRestartMsg])

/-- The `stop-domain` response handler of
`PayaraInstanceController.stopServer`: on HTTP 200 sets `STOPPED`, clears
the debug flag and disconnects the output; on any other status it does
nothing at all. -/
def stopServerResponse (statusCode : Nat) (i : ServerInst) : ServerInst × List Effect :=
  if statusCode = 200 then
    ({ i with state := InstanceState.STOPPED, debug := false },
     [Effect.stateSet InstanceState.STOPPED, Effect.refreshList, Effect.disconnectOutput])
  else (i, [])

/-- The action `PayaraInstanceController.deployApp` takes for a selected
server: start with a callback, restart with a callback, or run the
deployment directly. -/
inductive ServerCmd where
  | startWith (debug : Bool) (cb : Bool → List Effect)
  | restartWith (debug : Bool) (cb : Bool → List Effect)
  | direct (effects : List Effect)

/-- The `deploy` completion callback built inside `deployApp`: on success
uploads the artifact (direct deployment for `.war`/`.jar` paths, build
then deploy otherwise); on failure reports an error and uploads
nothing. -/
def deployCb (uri : List Char) (status : Bool) : List Effect :=
  if status then
    if (".war".toList).isSuffixOf uri || (".jar".toList).isSuffixOf uri then
      [Effect.deployApplication uri]
    else [Effect.buildAndDeploy uri]
  else [Effect.errorMsg deployAbortMsg]

/-- `PayaraInstanceController.deployApp` for a selected server: a
not-started server is first started with the deployment as the completion
callback; a running server with a mismatched debug mode is restarted;
otherwise the callback runs immediately with `true`. -/
def deployApp (uri : List Char) (debug : Bool) (server : ServerInst) : ServerCmd :=
  if server.state ≠ InstanceState.RUNNING then ServerCmd.startWith debug (deployCb uri)
  else if debug && !server.debug then ServerCmd.restartWith debug (deployCb uri)
  else ServerCmd.direct (deployCb uri true)

/-- Whether an effect is an upload (a deployment actually attempted). -/
def isUpload : Effect → Bool
  | Effect.deployApplication _ => true
  | Effect.buildAndDeploy _ => true
  | _ => false

/-- An event a micro instance can experience through its controller: an
operation call or the firing of one of the wired callbacks. -/
inductive MicroEvt where
  | startE (debug : Bool) (env : MicroEnv)
  | dataE (dc : Bool) (chunk : List Char)
  | startExitE (code : Int)
  | startErrorE
  | reloadE (env : MicroEnv) (o : TaskOutcome)
  | stopCallE (env : MicroEnv)
  | stopExitE (code : Int)
  | stopErrorE
  | bundleE

/-- The state change a single micro event induces on the instance. -/
def microApply : MicroEvt → MicroInst → MicroInst
  | MicroEvt.startE d env, i => (startMicro d env i).inst
  | MicroEvt.dataE dc c, i => (microOnData dc i c).2.1
  | MicroEvt.startExitE c, i => (microStartOnExit c i).1
  | MicroEvt.startErrorE, i => (microStartOnError i).1
  | MicroEvt.reloadE env o, i => (reloadRun env o i).inst
  | MicroEvt.stopCallE env, i => (stopMicro env i).inst
  | MicroEvt.stopExitE c, i => (microStopOnExit c i).1
  | MicroEvt.stopErrorE, i => (microStopOnError i).1
  | MicroEvt.bundleE, i => i

/-- Running a whole sequence of micro events. -/
def microRun (evts : List MicroEvt) (i : MicroInst) : MicroInst :=
  evts.foldl (fun j e => microApply e j) i

/-- Count of `RUNNING`-transition notifications in an effect list. -/
def isSetRunning (e : Effect) : Bool :=
  match e with
  | Effect.stateSet InstanceState.RUNNING => true
  | _ => false

/-- Number of `RUNNING` transitions performed in an effect list. -/
def runningTransitions (l : List Effect) : Nat := l.countP isSetRunning

def c1Inst : MicroInst :=
  { state := InstanceState.RUNNING, debug := true, homePage := none,
    process := some { pid := some 7 } }

def c1Env : MicroEnv :=
  { deployWar := some true, uberJar := some false, mavenHome := some "m",
    mavenExeExists := true, hasWorkspaceFolder := true, spawnPid := some 7 }

def c3Env : MicroEnv :=
  { deployWar := some true, uberJar := some false, mavenHome := some "m",
    mavenExeExists := true, hasWorkspaceFolder := true, spawnPid := some 42 }

def c3Inst : MicroInst :=
  { state := InstanceState.STOPPED, debug := false, homePage := none, process := none }

def c3Chunk : List Char := "Payara Micro URLs:\n http://localhost:8080\n".toList

def c9Env : MicroEnv :=
  { deployWar := some true, uberJar := some false, mavenHome := none,
    mavenExeExists := false, hasWorkspaceFolder := true, spawnPid := some 9 }

def c9Inst : MicroInst :=
  { state := InstanceState.STOPPED, debug := false, homePage := none, process := none }

def c10Env : MicroEnv :=
  { deployWar := some false, uberJar := some false, mavenHome := some "m",
    mavenExeExists := true, hasWorkspaceFolder := true, spawnPid := some 3 }

def c10Inst : MicroInst :=
  { state := InstanceState.STOPPED, debug := true, homePage := none, process := none }

def c6Inst : ServerInst := { state := InstanceState.RUNNING, debug := true }

def c5Inst : MicroInst :=
  { state := InstanceState.RUNNING, debug := true, homePage := none,
    process := some { pid := some 5 } }

def c5Srv : ServerInst := { state := InstanceState.RUNNING, debug := false }

def c7Uri : List Char := "app.war".toList

def c7Srv : ServerInst := { state := InstanceState.STOPPED, debug := false }

def c2Inst : MicroInst :=
  { state := InstanceState.LODING, debug := false, homePage := none,
    process := some { pid := some 2 } }

def c2Chunk : List Char := "Payara Micro URLs:".toList

def c8Env : MicroEnv :=
  { deployWar := some true, uberJar := some false, mavenHome := some "m",
    mavenExeExists := true, hasWorkspaceFolder := true, spawnPid := some 8 }

def c8Inst : MicroInst :=
  { state := InstanceState.RUNNING, debug := false, homePage := none,
    process := some { pid := some 8 } }

def c4Srv : ServerInst := { state := InstanceState.RUNNING, debug := false }

def c4SrvR : ServerInst := { state := InstanceState.RESTARTING, debug := false }

def c4Micro : MicroInst :=
  { state := InstanceState.STOPPED, debug := false, homePage := none, process := none }

theorem runningTransitions_append (a b : List Effect) :
    runningTransitions (a ++ b) = runningTransitions a + runningTransitions b := by
  simp [runningTransitions, List.countP_append]

/-- C1: `start` on an instance whose state is not `STOPPED` only surfaces
the "already running" error: no process is spawned, no state transition
is performed, and the state, debug flag and process handle are exactly as
before, for the micro controller and the server controller alike. -/
theorem start_rejected_when_not_stopped :
    (∀ (i : MicroInst) (d : Bool) (env : MicroEnv), i.state ≠ InstanceState.STOPPED →
      startMicro d env i =
        { inst := i, effects := [Effect.errorMsg microAlreadyRunningMsg], thrown := none })
    ∧ (∀ (i : ServerInst) (d : Bool) (env : ServerEnv), i.state ≠ InstanceState.STOPPED →
      startServer d env i = (i, [Effect.errorMsg serverAlreadyRunningMsg])) := by
  constructor
  · intro i d env h
    unfold startMicro
    rw [if_pos h]
  · intro i d env h
    unfold startServer
    rw [if_pos h]

theorem start_rejected_when_not_stopped_witness :
    startMicro false c1Env c1Inst =
      { inst := c1Inst, effects := [Effect.errorMsg microAlreadyRunningMsg], thrown := none } :=
  start_rejected_when_not_stopped.1 c1Inst false c1Env (by decide)

/-- C3: starting a `STOPPED` instance with `debug = false` and delivering
the single output chunk containing the ready banner and the URL line
leaves the instance `RUNNING` with home page exactly
"http://localhost:8080". -/
theorem start_then_ready_marker_sets_running_and_homepage :
    (microOnData false (startMicro false c3Env c3Inst).inst c3Chunk).2.1.state
      = InstanceState.RUNNING
    ∧ (microOnData false (startMicro false c3Env c3Inst).inst c3Chunk).2.1.homePage
      = some ("http://localhost:8080".toList) := by decide

/-- C9 (code bug): when the Maven home (and hence the build executable)
is missing, `fireCommand` throws after `startMicro` has already moved the
instance to `LODING`; the exception escapes `startMicro` and the instance
is left in `LODING`, not forced to `STOPPED`. -/
theorem missing_maven_leaves_instance_loading :
    (startMicro false c9Env c9Inst).inst.state = InstanceState.LODING
    ∧ (startMicro false c9Env c9Inst).thrown = some mavenHomeNotFoundMsg
    ∧ (startMicro false c9Env c9Inst).inst.state ≠ InstanceState.STOPPED := by decide

/-- C10: with both the `deployWar` and `useUberJar` plugin options
explicitly disabled, `startPayaraMicro` declines to produce a process
(returning no handle, with a warning message) and `startMicro` then puts
the instance back to `STOPPED` instead of leaving it in `LODING`. -/
theorem deploy_options_disabled_returns_to_stopped (i : MicroInst) (d b : Bool)
    (env : MicroEnv) (h1 : i.state = InstanceState.STOPPED)
    (h2 : env.deployWar = some false) (h3 : env.uberJar = some false) :
    startPayaraMicro env b =
      { proc := none, effects := [Effect.warnMsg enableOptionsMsg], thrown := none }
    ∧ (startMicro d env i).inst.state = InstanceState.STOPPED
    ∧ (startMicro d env i).thrown = none := by
  have hr : ∀ c : Bool, startPayaraMicro env c =
      { proc := none, effects := [Effect.warnMsg enableOptionsMsg], thrown := none } := by
    intro c
    unfold startPayaraMicro
    rw [if_pos ⟨h2, h3⟩]
  have hs : startMicro d env i =
      { inst := { i with debug := d, state := InstanceState.STOPPED },
        effects := [Effect.stateSet InstanceState.LODING, Effect.warnMsg enableOptionsMsg,
          Effect.stateSet InstanceState.STOPPED],
        thrown := none } := by
    unfold startMicro
    rw [if_neg (by simp [h1])]
    simp only [hr]
    rfl
  exact ⟨hr b, by rw [hs], by rw [hs]⟩

theorem deploy_options_disabled_returns_to_stopped_witness :
    (startMicro false c10Env c10Inst).inst.state = InstanceState.STOPPED :=
  (deploy_options_disabled_returns_to_stopped c10Inst false false c10Env
    (by decide) (by decide) (by decide)).2.1

/-- C6: a restart whose `restart-domain` admin call answers with a status
code other than 200 only reports an error; every field of the instance is
unchanged, so the state is neither `RESTARTING` nor `STOPPED` and the
debug flag is untouched. -/
theorem restart_failure_leaves_instance_unchanged (i : ServerInst) (d : Bool) (s : Nat)
    (hrun : i.state ≠ InstanceState.STOPPED) (h : s ≠ 200) :
    restartServerResponse s d i = (i, [Effect.errorMsg unableRestartMsg]) := by
  unfold restartServerResponse
  rw [if_neg h]

theorem restart_failure_leaves_instance_unchanged_witness :
    restartServerResponse 500 true c6Inst = (c6Inst, [Effect.errorMsg unableRestartMsg]) :=
  restart_failure_leaves_instance_unchanged c6Inst true 500 (by decide) (by decide)

/-- C5 counterexample: a running micro instance whose stop task fails
(the error callback fires) does NOT keep its state as-is — the error
callback forces the state to `STOPPED`, refuting the claim that the
failure path never forces `STOPPED`. -/
theorem stop_failure_forces_stopped_counterexample :
    c5Inst.state = InstanceState.RUNNING
    ∧ (microStopOnError c5Inst).1.state = InstanceState.STOPPED
    ∧ (microStopOnError c5Inst).1.state ≠ c5Inst.state := by decide

/-- C5 (amended): for the server, a `stop-domain` call that fails
(status ≠ 200) leaves the instance exactly as-is; for the micro
controller, however, both the exit and the error callback of the stop
task clear the debug flag and force `STOPPED` regardless of the exit code
or error. -/
theorem stop_failure_state_behaviour :
    (∀ (i : ServerInst) (s : Nat), s ≠ 200 → stopServerResponse s i = (i, []))
    ∧ (∀ (i : MicroInst) (c : Int),
        (microStopOnExit c i).1 = { i with debug := false, state := InstanceState.STOPPED })
    ∧ (∀ (i : MicroInst),
        (microStopOnError i).1 = { i with debug := false, state := InstanceState.STOPPED }) := by
  refine ⟨?_, ?_, ?_⟩
  · intro i s h
    unfold stopServerResponse
    rw [if_neg h]
  · intro i c
    rfl
  · intro i
    rfl

theorem stop_failure_state_behaviour_witness :
    stopServerResponse 404 c5Srv = (c5Srv, []) :=
  stop_failure_state_behaviour.1 c5Srv 404 (by decide)

/-- C7: a deploy request on a server that is not started routes through
`startServer`, handing the deployment over as the start-completion
callback; that callback uploads (deploys or builds-and-deploys) exactly
when it fires with `true`, and on `false` it only reports an error, so no
upload is attempted. -/
theorem deploy_not_started_goes_via_start (uri : List Char) (d : Bool) (server : ServerInst)
    (h : server.state ≠ InstanceState.RUNNING) :
    deployApp uri d server = ServerCmd.startWith d (deployCb uri)
    ∧ (∀ b : Bool, (deployCb uri b).any isUpload = b)
    ∧ deployCb uri false = [Effect.errorMsg deployAbortMsg] := by
  refine ⟨?_, ?_, rfl⟩
  · unfold deployApp
    rw [if_pos h]
  · intro b
    cases b
    · rfl
    · unfold deployCb
      rw [if_pos rfl]
      split
      · rfl
      · rfl

theorem deploy_not_started_goes_via_start_witness :
    deployApp c7Uri false c7Srv = ServerCmd.startWith false (deployCb c7Uri)
    ∧ deployCb c7Uri false = [Effect.errorMsg deployAbortMsg] :=
  ⟨(deploy_not_started_goes_via_start c7Uri false c7Srv (by decide)).1,
   (deploy_not_started_goes_via_start c7Uri false c7Srv (by decide)).2.2⟩

theorem parse_state_eq (data : List Char) (i : MicroInst) :
    (parseApplicationUrl data i).1.state = i.state := by
  unfold parseApplicationUrl
  rcases hj : jsIndexOf readyMarker data with _ | idx
  · rfl
  · dsimp only
    split
    · rfl
    · rfl

theorem parse_found_eq (data : List Char) (i : MicroInst) :
    (parseApplicationUrl data i).2.2 = hasMarker data := by
  unfold parseApplicationUrl hasMarker
  rcases hj : jsIndexOf readyMarker data with _ | idx
  · rfl
  · rfl

theorem parse_not_found (data : List Char) (i : MicroInst) (hm : hasMarker data = false) :
    parseApplicationUrl data i = (i, [], false) := by
  unfold parseApplicationUrl
  rcases hj : jsIndexOf readyMarker data with _ | idx
  · rfl
  · unfold hasMarker at hm
    rw [hj] at hm
    simp at hm

theorem homePageEffects_no_running (o : Option (List Char)) :
    runningTransitions (homePageEffects o) = 0 := by
  unfold homePageEffects
  rcases o with _ | hp
  · rfl
  · dsimp only
    split
    · rfl
    · rfl

theorem parse_no_running (data : List Char) (i : MicroInst) :
    runningTransitions (parseApplicationUrl data i).2.1 = 0 := by
  unfold parseApplicationUrl
  rcases hj : jsIndexOf readyMarker data with _ | idx
  · rfl
  · dsimp only
    exact homePageEffects_no_running _

theorem attach_no_running (b : Bool) :
    runningTransitions (if b then [Effect.startDebugging] else []) = 0 := by
  cases b
  · rfl
  · rfl

theorem onData_running_absorb (dc : Bool) (i : MicroInst) (d : List Char)
    (h : i.state = InstanceState.RUNNING) : microOnData dc i d = (dc, i, []) := by
  unfold microOnData
  rw [if_pos h]

theorem onDataList_running_absorb (chunks : List (List Char)) (dc : Bool) (i : MicroInst)
    (h : i.state = InstanceState.RUNNING) : microOnDataList dc i chunks = (dc, i, []) := by
  induction chunks generalizing dc with
  | nil => rfl
  | cons d rest ih =>
    unfold microOnDataList
    dsimp only
    rw [onData_running_absorb dc i d h]
    dsimp only
    rw [ih dc]
    rfl

theorem onData_marker_step (dc : Bool) (i : MicroInst) (d : List Char)
    (hi : i.state ≠ InstanceState.RUNNING) (hm : hasMarker d = true) :
    (microOnData dc i d).2.1.state = InstanceState.RUNNING
    ∧ runningTransitions (microOnData dc i d).2.2 = 1 := by
  unfold microOnData
  rw [if_neg hi]
  dsimp only
  have hf : (parseApplicationUrl d i).2.2 = true := by rw [parse_found_eq, hm]
  rw [hf]
  rw [if_pos rfl]
  constructor
  · rfl
  · rw [runningTransitions_append, runningTransitions_append, parse_no_running,
      attach_no_running]
    rfl

theorem onData_nomarker_step (dc : Bool) (i : MicroInst) (d : List Char)
    (hm : hasMarker d = false) :
    (microOnData dc i d).2.1 = i ∧ runningTransitions (microOnData dc i d).2.2 = 0 := by
  unfold microOnData
  by_cases hr : i.state = InstanceState.RUNNING
  · rw [if_pos hr]
    exact ⟨rfl, rfl⟩
  · rw [if_neg hr]
    dsimp only
    rw [parse_not_found d i hm]
    dsimp only
    rw [if_neg (by decide)]
    constructor
    · rfl
    · rw [runningTransitions_append, attach_no_running]
      rfl

theorem onDataList_marker_once (chunks : List (List Char)) :
    ∀ (dc : Bool) (i : MicroInst), i.state ≠ InstanceState.RUNNING →
      1 ≤ chunks.countP hasMarker →
      (microOnDataList dc i chunks).2.1.state = InstanceState.RUNNING
      ∧ runningTransitions (microOnDataList dc i chunks).2.2 = 1 := by
  induction chunks with
  | nil =>
    intro dc i hi hc
    simp [List.countP_nil] at hc
  | cons d rest ih =>
    intro dc i hi hc
    cases hm : hasMarker d with
    | false =>
      have h2 := onData_nomarker_step dc i d hm
      have hc2 : 1 ≤ rest.countP hasMarker := by
        rw [List.countP_cons] at hc
        simpa [hm] using hc
      unfold microOnDataList
      dsimp only
      rw [h2.1]
      have h3 := ih (microOnData dc i d).1 i hi hc2
      constructor
      · exact h3.1
      · rw [runningTransitions_append, h2.2, h3.2]
    | true =>
      have h1 := onData_marker_step dc i d hi hm
      unfold microOnDataList
      dsimp only
      rw [onDataList_running_absorb rest (microOnData dc i d).1 (microOnData dc i d).2.1 h1.1]
      constructor
      · exact h1.1
      · rw [runningTransitions_append, h1.2]
        rfl

/-- C2: once a started (loading) instance observes the ready marker, the
transition to `RUNNING` happens exactly once over the whole output
stream, even when the marker occurs in two or more chunks; after the
state has become `RUNNING` the data callback ignores every further chunk,
performing no transition and emitting no notification. -/
theorem ready_marker_transition_exactly_once (dc : Bool) (i : MicroInst)
    (chunks : List (List Char)) (hi : i.state = InstanceState.LODING)
    (hc : 2 ≤ chunks.countP hasMarker) :
    (microOnDataList dc i chunks).2.1.state = InstanceState.RUNNING
    ∧ runningTransitions (microOnDataList dc i chunks).2.2 = 1
    ∧ (∀ (dcr : Bool) (j : MicroInst) (d : List Char),
        j.state = InstanceState.RUNNING → microOnData dcr j d = (dcr, j, [])) := by
  have h1 : i.state ≠ InstanceState.RUNNING := by
    rw [hi]
    decide
  have h2 := onDataList_marker_once chunks dc i h1 (le_trans one_le_two hc)
  exact ⟨h2.1, h2.2, fun dcr j d h => onData_running_absorb dcr j d h⟩

theorem ready_marker_transition_exactly_once_witness :
    (microOnDataList false c2Inst [c2Chunk, c2Chunk]).2.1.state = InstanceState.RUNNING
    ∧ runningTransitions (microOnDataList false c2Inst [c2Chunk, c2Chunk]).2.2 = 1 :=
  ⟨(ready_marker_transition_exactly_once false c2Inst [c2Chunk, c2Chunk]
      (by decide) (by decide)).1,
   (ready_marker_transition_exactly_once false c2Inst [c2Chunk, c2Chunk]
      (by decide) (by decide)).2.1⟩

/-- C8: on a non-stopped instance, whenever the reload interaction
completes without an uncaught build exception — the task exits with any
code, the task errors, or no task is produced at all (uber-jar warning) —
the instance ends in state `RUNNING`. -/
theorem reload_outcome_always_running (env : MicroEnv) (o : TaskOutcome) (i : MicroInst)
    (h1 : i.state ≠ InstanceState.STOPPED) (h2 : env.spawnPid.isSome = true)
    (h3 : (reloadRun env o i).thrown = none) :
    (reloadRun env o i).inst.state = InstanceState.RUNNING := by
  obtain ⟨dw, uj, mh, ex, ws, sp⟩ := env
  rcases sp with _ | pid
  · simp at h2
  rcases uj with _ | b
  · rcases mh with _ | mhome
    · simp [reloadRun, reloadMicro, reloadPayaraMicro, fireCommand, h1, isTruthy] at h3
    · cases ex
      · simp [reloadRun, reloadMicro, reloadPayaraMicro, fireCommand, h1, isTruthy] at h3
      · cases ws
        · simp [reloadRun, reloadMicro, reloadPayaraMicro, fireCommand, h1, isTruthy] at h3
        · cases o <;>
            simp [reloadRun, reloadMicro, reloadPayaraMicro, fireCommand, reloadOnExit,
              reloadOnError, h1, isTruthy]
  · cases b
    · rcases mh with _ | mhome
      · simp [reloadRun, reloadMicro, reloadPayaraMicro, fireCommand, h1, isTruthy] at h3
      · cases ex
        · simp [reloadRun, reloadMicro, reloadPayaraMicro, fireCommand, h1, isTruthy] at h3
        · cases ws
          · simp [reloadRun, reloadMicro, reloadPayaraMicro, fireCommand, h1, isTruthy] at h3
          · cases o <;>
              simp [reloadRun, reloadMicro, reloadPayaraMicro, fireCommand, reloadOnExit,
                reloadOnError, h1, isTruthy]
    · simp [reloadRun, reloadMicro, reloadPayaraMicro, h1, isTruthy]

theorem reload_outcome_always_running_witness :
    (reloadRun c8Env (TaskOutcome.exited 1) c8Inst).inst.state = InstanceState.RUNNING :=
  reload_outcome_always_running c8Env (TaskOutcome.exited 1) c8Inst
    (by decide) (by decide) (by decide)

theorem startMicro_state_cases (d : Bool) (env : MicroEnv) (i : MicroInst) :
    (startMicro d env i).inst.state = i.state
    ∨ (startMicro d env i).inst.state = InstanceState.LODING
    ∨ (startMicro d env i).inst.state = InstanceState.STOPPED := by
  unfold startMicro
  split
  · left
    rfl
  · dsimp only
    split
    · right; left; rfl
    · split
      · right; left; rfl
      · right; right; rfl

theorem microOnData_state_cases (dc : Bool) (i : MicroInst) (d : List Char) :
    (microOnData dc i d).2.1.state = i.state
    ∨ (microOnData dc i d).2.1.state = InstanceState.RUNNING := by
  unfold microOnData
  split
  · left; rfl
  · dsimp only
    split
    · right; rfl
    · left
      exact parse_state_eq d i

theorem reloadMicro_inst_cases (env : MicroEnv) (i : MicroInst) :
    (reloadMicro env i).1.inst.state = i.state
    ∨ (reloadMicro env i).1.inst.state = InstanceState.LODING
    ∨ (reloadMicro env i).1.inst.state = InstanceState.RUNNING := by
  unfold reloadMicro
  split
  · left; rfl
  · dsimp only
    split
    · right; left; rfl
    · split
      · right; left; rfl
      · right; right; rfl

theorem reloadRun_state_cases (env : MicroEnv) (o : TaskOutcome) (i : MicroInst) :
    (reloadRun env o i).inst.state = i.state
    ∨ (reloadRun env o i).inst.state = InstanceState.LODING
    ∨ (reloadRun env o i).inst.state = InstanceState.RUNNING := by
  unfold reloadRun
  dsimp only
  split
  · cases o
    · right; right; rfl
    · right; right; rfl
  · exact reloadMicro_inst_cases env i

theorem stopMicro_inst_eq (env : MicroEnv) (i : MicroInst) :
    (stopMicro env i).inst = i := by
  unfold stopMicro
  split
  · rfl
  · rfl

theorem microApply_not_restarting (e : MicroEvt) (i : MicroInst)
    (h : i.state ≠ InstanceState.RESTARTING) :
    (microApply e i).state ≠ InstanceState.RESTARTING := by
  cases e with
  | startE d env =>
    simp only [microApply]
    rcases startMicro_state_cases d env i with hs | hs | hs <;> rw [hs]
    · exact h
    · decide
    · decide
  | dataE dc c =>
    simp only [microApply]
    rcases microOnData_state_cases dc i c with hs | hs <;> rw [hs]
    · exact h
    · decide
  | startExitE c =>
    simp only [microApply]
    exact (by decide : InstanceState.STOPPED ≠ InstanceState.RESTARTING)
  | startErrorE =>
    simp only [microApply]
    exact (by decide : InstanceState.STOPPED ≠ InstanceState.RESTARTING)
  | reloadE env o =>
    simp only [microApply]
    rcases reloadRun_state_cases env o i with hs | hs | hs <;> rw [hs]
    · exact h
    · decide
    · decide
  | stopCallE env =>
    simp only [microApply]
    rw [stopMicro_inst_eq]
    exact h
  | stopExitE c =>
    simp only [microApply]
    exact (by decide : InstanceState.STOPPED ≠ InstanceState.RESTARTING)
  | stopErrorE =>
    simp only [microApply]
    exact (by decide : InstanceState.STOPPED ≠ InstanceState.RESTARTING)
  | bundleE =>
    simp only [microApply]
    exact h

theorem microRun_not_restarting (evts : List MicroEvt) (i : MicroInst)
    (h : i.state ≠ InstanceState.RESTARTING) :
    (microRun evts i).state ≠ InstanceState.RESTARTING := by
  induction evts generalizing i with
  | nil => exact h
  | cons e rest ih => exact ih (microApply e i) (microApply_not_restarting e i h)

/-- C4: when the process-exit callback of a started instance fires, the
instance is set to `STOPPED` unless it is flagged `RESTARTING`, in which
case the exit is ignored and the instance is left untouched: the server
exit handler checks the flag explicitly, and the micro exit handler —
which stops unconditionally — belongs to a controller under which an
instance starting from `STOPPED` can never be in `RESTARTING` when any
callback fires. -/
theorem exit_callback_stops_unless_restarting :
    (∀ (i : ServerInst) (c : Int), i.state ≠ InstanceState.RESTARTING →
        serverStartOnExit c i =
          ({ i with state := InstanceState.STOPPED }, [Effect.refreshList]))
    ∧ (∀ (i : ServerInst) (c : Int), i.state = InstanceState.RESTARTING →
        serverStartOnExit c i = (i, []))
    ∧ (∀ (i : MicroInst) (c : Int),
        (microStartOnExit c i).1 = { i with state := InstanceState.STOPPED })
    ∧ (∀ (evts : List MicroEvt) (i0 : MicroInst), i0.state = InstanceState.STOPPED →
        (microRun evts i0).state ≠ InstanceState.RESTARTING) := by
  refine ⟨?_, ?_, ?_, ?_⟩
  · intro i c h
    unfold serverStartOnExit
    rw [if_neg h]
  · intro i c h
    unfold serverStartOnExit
    rw [if_pos h]
  · intro i c
    rfl
  · intro evts i0 h0
    exact microRun_not_restarting evts i0 (by rw [h0]; decide)

theorem exit_callback_stops_unless_restarting_witness :
    serverStartOnExit 0 c4Srv = ({ c4Srv with state := InstanceState.STOPPED }, [Effect.refreshList])
    ∧ serverStartOnExit 0 c4SrvR = (c4SrvR, [])
    ∧ (microRun [] c4Micro).state ≠ InstanceState.RESTARTING :=
  ⟨exit_callback_stops_unless_restarting.1 c4Srv 0 (by decide),
   exit_callback_stops_unless_restarting.2.1 c4SrvR 0 (by decide),
   exit_callback_stops_unless_restarting.2.2.2 [] c4Micro (by decide)⟩
